import Mathlib

/-!
Verification of the RabbitMQ relay transport adapter
(`src/services/rabbitmqRelayPlugin.ts` of tazama-lf/relay-service-integration-rabbitmq).

The adapter is shallowly embedded as pure Lean functions over an explicit
adapter state (`RabbitMQRelayPlugin`), an explicit model of the external
collaborators (`BrokerWorld`: the amqplib client and `fs.readFileSync`),
and an explicit event trace (`Event`) recording every observable call the
adapter makes to its collaborators (logger, APM, amqplib).  `init` and
`relay` return the outcome (`Except JsError Unit`, modelling a resolved or
rejected promise), the post-state, and the trace of the run.
-/

namespace Tazama

/-- Byte sequences: the contents of a Node `Buffer` / `Uint8Array`, each byte a
value below 256. -/
abbrev Bytes := List Nat

/-- UTF-8 encoding of one character, as Node's `Buffer.from(string)` performs
(the standard UTF-8 scheme: 1 to 4 bytes depending on the code point). -/
def utf8EncodeChar (c : Char) : List Nat :=
  let v := c.toNat
  if v < 0x80 then [v]
  else if v < 0x800 then
    [0xC0 ||| (v >>> 6), 0x80 ||| (v &&& 0x3F)]
  else if v < 0x10000 then
    [0xE0 ||| (v >>> 12), 0x80 ||| ((v >>> 6) &&& 0x3F), 0x80 ||| (v &&& 0x3F)]
  else
    [0xF0 ||| (v >>> 18), 0x80 ||| ((v >>> 12) &&& 0x3F),
     0x80 ||| ((v >>> 6) &&& 0x3F), 0x80 ||| (v &&& 0x3F)]

/-- UTF-8 encoding of a string. -/
def utf8Bytes (s : String) : Bytes :=
  s.data.flatMap utf8EncodeChar

/-- A JavaScript error surfaced to the caller, identified by its message. -/
abbrev JsError := String

/-- The TLS options object handed to `amqplib.connect`.  The code builds either
`\x7b\x7d` (no CA field, modelled as `ca := none`) or
`\x7b ca: fs.readFileSync(path) \x7d` (modelled as `ca := some content`). -/
structure TlsOptions where
  ca : Option String
  deriving Repr, DecidableEq

/-- The validated configuration object (`Configuration` in `src/config.ts`):
the fields the adapter reads.  `RABBITMQ_TLS_CA` is the optional path of the
CA certificate file. -/
structure Configuration where
  nodeEnv : String
  DESTINATION_TRANSPORT_URL : String
  PRODUCER_STREAM : String
  RABBITMQ_TLS_CA : Option String
  deriving Repr, DecidableEq

/-- A broker connection handle (`ChannelModel` from amqplib), identified by an
id; its inner structure is irrelevant to the adapter. -/
structure ChannelModel where
  id : Nat
  deriving Repr, DecidableEq

/-- A broker channel handle (`Channel` from amqplib). -/
structure Channel where
  id : Nat
  deriving Repr, DecidableEq

/-- The injected logger collaborator.  It carries no data the adapter reads;
its calls are recorded in the event trace. -/
structure LoggerService where
  deriving Repr, DecidableEq

/-- An APM transaction handle (the value `apm.startTransaction` returns when
it is not null). -/
structure Transaction where
  id : Nat
  deriving Repr, DecidableEq

/-- An APM span handle (the value `apm.startSpan` returns when it is not
null). -/
structure Span where
  id : Nat
  deriving Repr, DecidableEq

/-- The injected APM collaborator.  `startTransaction` and `startSpan` each
return either a handle or null; the two fields model the handle each call
returns during a `relay` run (`none` = the call returns null). -/
structure Apm where
  startTransactionHandle : Option Transaction
  startSpanHandle : Option Span
  deriving Repr, DecidableEq

/-- One observable call from the adapter to a collaborator. -/
inductive Event where
  /-- `loggerservice.log(message, context)` -/
  | logInfo (message context : String)
  /-- `loggerservice.error(message, detail, context)` -/
  | logError (message detail context : String)
  /-- `apm.startTransaction(name)` -/
  | startTransactionCall (name : String)
  /-- `apm.startSpan(name)` -/
  | startSpanCall (name : String)
  /-- `span.end()` -/
  | spanEndCall
  /-- `apmTransaction.end()` -/
  | transactionEndCall
  /-- `amqplib.connect(url, tlsOptions)` -/
  | connectCall (url : String) (tls : TlsOptions)
  /-- `connection.createChannel()` -/
  | createChannelCall
  /-- `channel.sendToQueue(queue, bytes)` -/
  | sendToQueueCall (queue : String) (bytes : Bytes)
  deriving Repr, DecidableEq

/-- Behaviour of the external world during one run: the amqplib client
(whether `connect`, `createChannel` and `sendToQueue` succeed or throw, and
with which values) and `fs.readFileSync` (the CA file contents). -/
structure BrokerWorld where
  connectResult : String → TlsOptions → Except JsError ChannelModel
  createChannelResult : ChannelModel → Except JsError Channel
  sendToQueueResult : String → Bytes → Except JsError Unit
  readFileSync : String → String

/-- The adapter's instance fields (`RabbitMQRelayPlugin` class). -/
structure RabbitMQRelayPlugin where
  amqpConnection : Option ChannelModel
  amqpChannel : Option Channel
  loggerservice : Option LoggerService
  apm : Option Apm
  configuration : Configuration

/-- `this.loggerservice?.log(message, context)`: an event only when the logger
collaborator is present. -/
def logOpt (logger : Option LoggerService) (message context : String) : List Event :=
  match logger with
  | none => []
  | some _ => [Event.logInfo message context]

/-- `this.loggerservice?.error(message, detail, context)`: an event only when
the logger collaborator is present. -/
def logErrorOpt (logger : Option LoggerService) (message detail context : String) : List Event :=
  match logger with
  | none => []
  | some _ => [Event.logError message detail context]

/-- The error thrown when `RABBITMQ_TLS_CA` is missing outside development. -/
def tlsRequiredError : JsError :=
  "TLS certificate (RABBITMQ_TLS_CA) is required in non-development environments"

/-- The error thrown by `relay` when the connection or channel is absent. -/
def notInitializedError : JsError :=
  "RabbitMQ connection is not initialized"

/-- The TLS-options computation at the top of `init`'s try block:
`let tlsOptions = \x7b\x7d; if (nodeEnv !== 'dev') \x7b if (!RABBITMQ_TLS_CA) throw ...;
tlsOptions = \x7b ca: fs.readFileSync(RABBITMQ_TLS_CA, 'utf-8') \x7d \x7d`.
The `none` and empty-string cases together model JavaScript falsiness of the
optional string `RABBITMQ_TLS_CA`. -/
def tlsOptionsFor (config : Configuration) (readFileSync : String → String) :
    Except JsError TlsOptions :=
  if config.nodeEnv ≠ "dev" then
    match config.RABBITMQ_TLS_CA with
    | none => .error tlsRequiredError
    | some caPath =>
      if caPath.isEmpty then .error tlsRequiredError
      else .ok { ca := some (readFileSync caPath) }
  else .ok { ca := none }

/-- Shallow embedding of `RabbitMQRelayPlugin.init(loggerService?, apm?)`.

Mirrors the method line by line: store the collaborator arguments; log the
startup message; compute the TLS options (throwing inside the try block when
the CA is required and absent); `await amqplib.connect(url, tlsOptions)`;
`await connection.createChannel()`; log success.  Any failure is caught,
logged through `loggerservice?.error` and rethrown.  Returns the promise
outcome, the post-state and the event trace. -/
def init (self : RabbitMQRelayPlugin) (world : BrokerWorld)
    (loggerService : Option LoggerService) (apm : Option Apm) :
    Except JsError Unit × RabbitMQRelayPlugin × List Event :=
  let self1 := { self with loggerservice := loggerService, apm := apm }
  let ev0 := logOpt loggerService "RabbitMQ Relay Plugin initialized" "RabbitMQRelayPlugin"
  match tlsOptionsFor self1.configuration world.readFileSync with
  | .error e =>
      (.error e, self1,
        ev0 ++ logErrorOpt loggerService "Failed to connect to RabbitMQ" e "RabbitMQRelayPlugin")
  | .ok tlsOptions =>
      match world.connectResult self1.configuration.DESTINATION_TRANSPORT_URL tlsOptions with
      | .error e =>
          (.error e, self1,
            ev0 ++ [Event.connectCall self1.configuration.DESTINATION_TRANSPORT_URL tlsOptions]
                ++ logErrorOpt loggerService "Failed to connect to RabbitMQ" e "RabbitMQRelayPlugin")
      | .ok conn =>
          let self2 := { self1 with amqpConnection := some conn }
          match world.createChannelResult conn with
          | .error e =>
              (.error e, self2,
                ev0 ++ [Event.connectCall self1.configuration.DESTINATION_TRANSPORT_URL tlsOptions,
                        Event.createChannelCall]
                    ++ logErrorOpt loggerService "Failed to connect to RabbitMQ" e "RabbitMQRelayPlugin")
          | .ok chan =>
              (.ok (), { self2 with amqpChannel := some chan },
                ev0 ++ [Event.connectCall self1.configuration.DESTINATION_TRANSPORT_URL tlsOptions,
                        Event.createChannelCall]
                    ++ logOpt loggerService "Connected to RabbitMQ" "RabbitMQRelayPlugin")

/-- A `relay` payload: `Uint8Array | string`. -/
inductive Payload where
  | bytes (b : Bytes)
  | str (s : String)
  deriving Repr, DecidableEq

/-- `Buffer.from(data)`: a byte-for-byte copy of a `Uint8Array`, the UTF-8
encoding of a string. -/
def bufferFrom : Payload → Bytes
  | .bytes b => b
  | .str s => utf8Bytes s

/-- Shallow embedding of `RabbitMQRelayPlugin.relay(data)`.

Mirrors the method: `let apmTransaction = null`; throw the not-initialized
error when the connection or channel is absent; inside the try block start the
APM transaction and span (either call skipped when `apm` is absent, either
returned handle possibly null), log the relaying message, call
`sendToQueue(PRODUCER_STREAM, Buffer.from(data))` and then `span?.end()`; on a
thrown error log it and rethrow (`await Promise.reject`); in the finally block
call `apmTransaction.end()` when the transaction handle is truthy.  Returns
the promise outcome, the post-state and the event trace. -/
def relay (self : RabbitMQRelayPlugin) (world : BrokerWorld) (data : Payload) :
    Except JsError Unit × RabbitMQRelayPlugin × List Event :=
  match self.amqpConnection, self.amqpChannel with
  | some _, some _ =>
      let apmTransaction : Option Transaction := self.apm.bind fun a => a.startTransactionHandle
      let evTxn : List Event :=
        match self.apm with
        | none => []
        | some _ => [Event.startTransactionCall "RabbitMQRelayPlugin"]
      let span : Option Span := self.apm.bind fun a => a.startSpanHandle
      let evSpan : List Event :=
        match self.apm with
        | none => []
        | some _ => [Event.startSpanCall "relay"]
      let evLog := logOpt self.loggerservice "Relaying message to RabbitMQ" "RabbitMQRelayPlugin"
      let queue := self.configuration.PRODUCER_STREAM
      let bytes := bufferFrom data
      let evFinally : List Event :=
        if apmTransaction.isSome then [Event.transactionEndCall] else []
      match world.sendToQueueResult queue bytes with
      | .ok _ =>
          let evSpanEnd : List Event := if span.isSome then [Event.spanEndCall] else []
          (.ok (), self,
            evTxn ++ evSpan ++ evLog ++ [Event.sendToQueueCall queue bytes]
              ++ evSpanEnd ++ evFinally)
      | .error e =>
          (.error e, self,
            evTxn ++ evSpan ++ evLog ++ [Event.sendToQueueCall queue bytes]
              ++ logErrorOpt self.loggerservice "Failed to relay message to RabbitMQ" e "RabbitMQRelayPlugin"
              ++ evFinally)
  | _, _ => (.error notInitializedError, self, [])

/-- Number of `span.end()` calls in a trace. -/
def countSpanEnds (events : List Event) : Nat :=
  events.countP fun e =>
    match e with
    | Event.spanEndCall => true
    | _ => false

/-- Number of `apmTransaction.end()` calls in a trace. -/
def countTransactionEnds (events : List Event) : Nat :=
  events.countP fun e =>
    match e with
    | Event.transactionEndCall => true
    | _ => false

/-- The `sendToQueue` calls of a trace, in order, with their arguments. -/
def sendEvents (events : List Event) : List Event :=
  events.filter fun e =>
    match e with
    | Event.sendToQueueCall _ _ => true
    | _ => false

/-- The `connect` calls of a trace, in order, with their arguments. -/
def connectEvents (events : List Event) : List Event :=
  events.filter fun e =>
    match e with
    | Event.connectCall _ _ => true
    | _ => false

/-! ### Concrete fixtures, mirroring the mocked setup of the unit tests -/

/-- The development configuration the unit tests mock. -/
def devConfig : Configuration :=
  { nodeEnv := "dev"
    DESTINATION_TRANSPORT_URL := "amqp://localhost:5672"
    PRODUCER_STREAM := "test-queue"
    RABBITMQ_TLS_CA := none }

/-- The production (TLS) configuration the unit tests mock. -/
def prodConfig : Configuration :=
  { nodeEnv := "production"
    DESTINATION_TRANSPORT_URL := "amqps://prod-rabbitmq:5671"
    PRODUCER_STREAM := "test-queue"
    RABBITMQ_TLS_CA := some "ca-file-path.pem" }

/-- An APM collaborator whose two calls both return non-null handles. -/
def apmBoth : Apm :=
  { startTransactionHandle := some { id := 0 }
    startSpanHandle := some { id := 1 } }

/-- A world where every broker operation succeeds. -/
def worldOk : BrokerWorld :=
  { connectResult := fun _ _ => .ok { id := 0 }
    createChannelResult := fun _ => .ok { id := 0 }
    sendToQueueResult := fun _ _ => .ok ()
    readFileSync := fun _ => "CA-FAKE-CONTENT" }

/-- A world where `sendToQueue` throws. -/
def worldSendFail : BrokerWorld :=
  { worldOk with sendToQueueResult := fun _ _ => .error "Send failed" }

/-- A world where `connect` rejects. -/
def worldConnectFail : BrokerWorld :=
  { worldOk with connectResult := fun _ _ => .error "Connection failed" }

/-- An initialized adapter: connection and channel set, logger and APM present. -/
def pluginReady : RabbitMQRelayPlugin :=
  { amqpConnection := some { id := 0 }
    amqpChannel := some { id := 0 }
    loggerservice := some {}
    apm := some apmBoth
    configuration := devConfig }

/-- A freshly constructed adapter: no connection, no channel, no collaborators. -/
def pluginFresh : RabbitMQRelayPlugin :=
  { amqpConnection := none
    amqpChannel := none
    loggerservice := none
    apm := none
    configuration := devConfig }

/-- A freshly constructed adapter holding the production (TLS) configuration. -/
def pluginFreshProd : RabbitMQRelayPlugin :=
  { pluginFresh with configuration := prodConfig }

/-! ### Claim theorems -/

/-- C2: on an adapter whose stored connection or channel is absent, `relay`
fails with the distinguished not-initialized error for every input, leaves the
state unchanged, and produces an empty trace — no broker send, no logging, no
tracing. -/
theorem relay_uninitialized (self : RabbitMQRelayPlugin) (world : BrokerWorld)
    (data : Payload)
    (h : self.amqpConnection = none ∨ self.amqpChannel = none) :
    relay self world data = (.error notInitializedError, self, []) := by
  unfold relay
  rcases h with h | h
  · rw [h]
  · rw [h]
    cases self.amqpConnection <;> rfl

theorem relay_uninitialized_witness :
    relay pluginFresh worldOk (Payload.str "x") = (.error notInitializedError, pluginFresh, []) :=
  relay_uninitialized pluginFresh worldOk (Payload.str "x") (Or.inl rfl)

/-- C10: `relay` never writes any adapter field: in every state and for every
payload and world behaviour, the post-state equals the pre-state, whether the
call succeeds, rejects as not-initialized, or rejects because the send threw. -/
theorem relay_preserves_state (self : RabbitMQRelayPlugin) (world : BrokerWorld)
    (data : Payload) :
    (relay self world data).2.1 = self := by
  simp only [relay]
  repeat' split
  all_goals rfl

/-- C9: every `init(loggerService, apm)` call unconditionally overwrites the
stored logger and APM collaborators with its arguments, in every outcome —
success, TLS-configuration error, connect rejection or channel-creation
failure. -/
theorem init_overwrites_collaborators (self : RabbitMQRelayPlugin) (world : BrokerWorld)
    (loggerService : Option LoggerService) (apm : Option Apm) :
    (init self world loggerService apm).2.1.loggerservice = loggerService ∧
      (init self world loggerService apm).2.1.apm = apm := by
  refine ⟨?_, ?_⟩ <;>
    · simp only [init]
      repeat' split
      all_goals rfl

/-- C5: on an initialized adapter, a buffer payload `b` leads to exactly one
`sendToQueue` call, whose queue argument is the configured `PRODUCER_STREAM`
and whose byte argument is `b` itself, untransformed — whether or not the send
then throws. -/
theorem relay_buffer_byte_fidelity (self : RabbitMQRelayPlugin) (world : BrokerWorld)
    (b : Bytes) (c : ChannelModel) (ch : Channel)
    (hc : self.amqpConnection = some c) (hch : self.amqpChannel = some ch) :
    sendEvents (relay self world (Payload.bytes b)).2.2 =
      [Event.sendToQueueCall self.configuration.PRODUCER_STREAM b] := by
  simp only [relay, hc, hch, bufferFrom]
  cases self.apm <;> cases self.loggerservice <;>
    cases world.sendToQueueResult self.configuration.PRODUCER_STREAM b <;>
      simp [sendEvents, logOpt, logErrorOpt]

theorem relay_buffer_byte_fidelity_witness :
    sendEvents (relay pluginReady worldOk (Payload.bytes [0x68, 0x69])).2.2 =
      [Event.sendToQueueCall "test-queue" [0x68, 0x69]] :=
  relay_buffer_byte_fidelity pluginReady worldOk [0x68, 0x69] { id := 0 } { id := 0 } rfl rfl

/-- C6: on an initialized adapter, a string payload `s` leads to exactly one
`sendToQueue` call, whose byte argument is the UTF-8 encoding of `s` and whose
queue argument is the configured `PRODUCER_STREAM`. -/
theorem relay_string_utf8 (self : RabbitMQRelayPlugin) (world : BrokerWorld)
    (s : String) (c : ChannelModel) (ch : Channel)
    (hc : self.amqpConnection = some c) (hch : self.amqpChannel = some ch) :
    sendEvents (relay self world (Payload.str s)).2.2 =
      [Event.sendToQueueCall self.configuration.PRODUCER_STREAM (utf8Bytes s)] := by
  simp only [relay, hc, hch, bufferFrom]
  cases self.apm <;> cases self.loggerservice <;>
    cases world.sendToQueueResult self.configuration.PRODUCER_STREAM (utf8Bytes s) <;>
      simp [sendEvents, logOpt, logErrorOpt]

theorem relay_string_utf8_witness :
    sendEvents (relay pluginReady worldOk (Payload.str "hello")).2.2 =
      [Event.sendToQueueCall "test-queue" [104, 101, 108, 108, 111]] :=
  relay_string_utf8 pluginReady worldOk "hello" { id := 0 } { id := 0 } rfl rfl

/-- C8: replacing the logger and APM collaborators of an adapter by any others
(including absent ones, or ones whose calls return null handles) changes
neither the outcome of `relay` nor the `sendToQueue` calls it makes — in every
adapter state and for every payload and world behaviour. -/
theorem relay_collaborator_noninterference (self : RabbitMQRelayPlugin)
    (world : BrokerWorld) (data : Payload)
    (logger : Option LoggerService) (apm : Option Apm) :
    (relay { self with loggerservice := logger, apm := apm } world data).1 =
        (relay self world data).1 ∧
      sendEvents (relay { self with loggerservice := logger, apm := apm } world data).2.2 =
        sendEvents (relay self world data).2.2 := by
  cases hc : self.amqpConnection <;> cases hch : self.amqpChannel <;>
    simp only [relay, hc, hch]
  case some.some =>
    cases self.apm <;> cases apm <;> cases self.loggerservice <;> cases logger <;>
      cases world.sendToQueueResult self.configuration.PRODUCER_STREAM (bufferFrom data) <;>
        simp [sendEvents, logOpt, logErrorOpt] <;> split_ifs <;> rfl
  all_goals exact ⟨trivial, trivial⟩

/-- C1 as stated fails on the code: at a concrete initialized adapter whose
APM returns non-null handles, a `relay` whose `sendToQueue` throws does start
the span (non-null handle) yet never invokes its `end()` — `span?.end()` sits
inside the try block after the send, not in a guaranteed-cleanup block; only
the transaction end is in `finally` and runs exactly once. -/
theorem relay_span_not_ended_on_send_failure :
    apmBoth.startSpanHandle.isSome = true ∧
      Event.startSpanCall "relay" ∈ (relay pluginReady worldSendFail (Payload.str "fail-message")).2.2 ∧
      (relay pluginReady worldSendFail (Payload.str "fail-message")).1 = .error "Send failed" ∧
      countSpanEnds (relay pluginReady worldSendFail (Payload.str "fail-message")).2.2 = 0 ∧
      countTransactionEnds (relay pluginReady worldSendFail (Payload.str "fail-message")).2.2 = 1 :=
  ⟨rfl, by decide, rfl, rfl, rfl⟩

/-- C1 amended: on an initialized adapter, the transaction handle (when
non-null) has `end()` invoked exactly once whether the send succeeds or
throws; the span handle (when non-null) has `end()` invoked exactly once when
the send succeeds, but zero times when the send throws. -/
theorem relay_apm_end_counts (self : RabbitMQRelayPlugin) (world : BrokerWorld)
    (data : Payload) (c : ChannelModel) (ch : Channel)
    (hc : self.amqpConnection = some c) (hch : self.amqpChannel = some ch) :
    countTransactionEnds (relay self world data).2.2 =
        (if (self.apm.bind fun a => a.startTransactionHandle).isSome then 1 else 0) ∧
      (∀ u : Unit,
        world.sendToQueueResult self.configuration.PRODUCER_STREAM (bufferFrom data) = .ok u →
          countSpanEnds (relay self world data).2.2 =
            if (self.apm.bind fun a => a.startSpanHandle).isSome then 1 else 0) ∧
      (∀ e : JsError,
        world.sendToQueueResult self.configuration.PRODUCER_STREAM (bufferFrom data) = .error e →
          countSpanEnds (relay self world data).2.2 = 0) := by
  simp only [relay, hc, hch]
  cases self.apm <;> cases self.loggerservice <;>
    cases hsend : world.sendToQueueResult self.configuration.PRODUCER_STREAM (bufferFrom data) <;>
      simp [countSpanEnds, countTransactionEnds, logOpt, logErrorOpt] <;>
        split_ifs <;> simp

theorem relay_apm_end_counts_witness :
    countTransactionEnds (relay pluginReady worldSendFail (Payload.str "x")).2.2 =
        (if (pluginReady.apm.bind fun a => a.startTransactionHandle).isSome then 1 else 0) ∧
      countSpanEnds (relay pluginReady worldSendFail (Payload.str "x")).2.2 = 0 := by
  have h := relay_apm_end_counts pluginReady worldSendFail (Payload.str "x")
    { id := 0 } { id := 0 } rfl rfl
  exact ⟨h.1, h.2.2 "Send failed" rfl⟩

/-- C3: failures are logged and propagated, never swallowed — whenever the
connect call `init` performs rejects, `init` rejects with that same error and
(when a logger is present) an error entry is logged; whenever the send call
throws, `relay` rejects with that same error and (when a logger is present) an
error entry is logged. -/
theorem init_relay_propagate_errors :
    (∀ (self : RabbitMQRelayPlugin) (world : BrokerWorld)
        (logger : Option LoggerService) (apm : Option Apm) (e : JsError),
      (self.configuration.nodeEnv = "dev" ∨
          ∃ s, self.configuration.RABBITMQ_TLS_CA = some s ∧ s.isEmpty = false) →
      (∀ tls, world.connectResult self.configuration.DESTINATION_TRANSPORT_URL tls = .error e) →
      (init self world logger apm).1 = .error e ∧
        (logger.isSome = true →
          Event.logError "Failed to connect to RabbitMQ" e "RabbitMQRelayPlugin"
            ∈ (init self world logger apm).2.2)) ∧
    (∀ (self : RabbitMQRelayPlugin) (world : BrokerWorld) (data : Payload)
        (c : ChannelModel) (ch : Channel) (e : JsError),
      self.amqpConnection = some c → self.amqpChannel = some ch →
      world.sendToQueueResult self.configuration.PRODUCER_STREAM (bufferFrom data) = .error e →
      (relay self world data).1 = .error e ∧
        (self.loggerservice.isSome = true →
          Event.logError "Failed to relay message to RabbitMQ" e "RabbitMQRelayPlugin"
            ∈ (relay self world data).2.2)) := by
  constructor
  · intro self world logger apm e hreach hconn
    have htls : ∃ tls, tlsOptionsFor self.configuration world.readFileSync = Except.ok tls := by
      by_cases hdev : self.configuration.nodeEnv = "dev"
      · exact ⟨{ ca := none }, by simp [tlsOptionsFor, hdev]⟩
      · rcases hreach with hdev' | ⟨s, hs, hsne⟩
        · exact absurd hdev' hdev
        · exact ⟨{ ca := some (world.readFileSync s) },
            by simp [tlsOptionsFor, hdev, hs, hsne]⟩
    rcases htls with ⟨tls, htls⟩
    constructor
    · simp [init, htls, hconn]
    · intro hl
      cases logger with
      | none => simp at hl
      | some lg => simp [init, htls, hconn, logOpt, logErrorOpt]
  · intro self world data c ch e hc hch hsend
    constructor
    · simp [relay, hc, hch, hsend]
    · intro hl
      cases hlg : self.loggerservice with
      | none => rw [hlg] at hl; simp at hl
      | some lg =>
        cases self.apm <;> simp [relay, hc, hch, hsend, hlg, logOpt, logErrorOpt]

theorem init_relay_propagate_errors_witness :
    (init pluginFresh worldConnectFail (some {}) none).1 = .error "Connection failed" ∧
      Event.logError "Failed to connect to RabbitMQ" "Connection failed" "RabbitMQRelayPlugin"
        ∈ (init pluginFresh worldConnectFail (some {}) none).2.2 ∧
      (relay pluginReady worldSendFail (Payload.str "x")).1 = .error "Send failed" ∧
      Event.logError "Failed to relay message to RabbitMQ" "Send failed" "RabbitMQRelayPlugin"
        ∈ (relay pluginReady worldSendFail (Payload.str "x")).2.2 := by
  have h1 := init_relay_propagate_errors.1 pluginFresh worldConnectFail (some {}) none
    "Connection failed" (Or.inl rfl) (fun _ => rfl)
  have h2 := init_relay_propagate_errors.2 pluginReady worldSendFail (Payload.str "x")
    { id := 0 } { id := 0 } "Send failed" rfl rfl rfl
  exact ⟨h1.1, h1.2 rfl, h2.1, h2.2 rfl⟩

/-- An adapter in the production configuration but with no CA configured. -/
def pluginFreshProdNoCA : RabbitMQRelayPlugin :=
  { pluginFresh with configuration := { prodConfig with RABBITMQ_TLS_CA := none } }

/-- C4: `init` path selection on the environment tag — in development the
connect call (the only one of the run) carries the empty TLS options; outside
development with a CA configured, the connect call carries TLS options whose
`ca` is the content read from that CA path; outside development with no CA,
`init` fails with the TLS-configuration error and performs no connect call. -/
theorem init_tls_path_selection :
    (∀ (self : RabbitMQRelayPlugin) (world : BrokerWorld)
        (logger : Option LoggerService) (apm : Option Apm),
      self.configuration.nodeEnv = "dev" →
      connectEvents (init self world logger apm).2.2 =
        [Event.connectCall self.configuration.DESTINATION_TRANSPORT_URL { ca := none }]) ∧
    (∀ (self : RabbitMQRelayPlugin) (world : BrokerWorld)
        (logger : Option LoggerService) (apm : Option Apm) (s : String),
      self.configuration.nodeEnv ≠ "dev" →
      self.configuration.RABBITMQ_TLS_CA = some s → s.isEmpty = false →
      connectEvents (init self world logger apm).2.2 =
        [Event.connectCall self.configuration.DESTINATION_TRANSPORT_URL
          { ca := some (world.readFileSync s) }]) ∧
    (∀ (self : RabbitMQRelayPlugin) (world : BrokerWorld)
        (logger : Option LoggerService) (apm : Option Apm),
      self.configuration.nodeEnv ≠ "dev" →
      self.configuration.RABBITMQ_TLS_CA = none →
      (init self world logger apm).1 = .error tlsRequiredError ∧
        connectEvents (init self world logger apm).2.2 = []) := by
  refine ⟨?_, ?_, ?_⟩
  · intro self world logger apm hdev
    have htls : tlsOptionsFor self.configuration world.readFileSync = .ok { ca := none } := by
      simp [tlsOptionsFor, hdev]
    simp only [init, htls]
    cases hcn : world.connectResult self.configuration.DESTINATION_TRANSPORT_URL { ca := none } with
    | error e => cases logger <;> simp [hcn, connectEvents, logOpt, logErrorOpt]
    | ok conn =>
      cases hcc : world.createChannelResult conn <;> cases logger <;>
        simp [hcn, hcc, connectEvents, logOpt, logErrorOpt]
  · intro self world logger apm s hdev hca hsne
    have htls : tlsOptionsFor self.configuration world.readFileSync =
        .ok { ca := some (world.readFileSync s) } := by
      simp [tlsOptionsFor, hdev, hca, hsne]
    simp only [init, htls]
    cases hcn : world.connectResult self.configuration.DESTINATION_TRANSPORT_URL
        { ca := some (world.readFileSync s) } with
    | error e => cases logger <;> simp [hcn, connectEvents, logOpt, logErrorOpt]
    | ok conn =>
      cases hcc : world.createChannelResult conn <;> cases logger <;>
        simp [hcn, hcc, connectEvents, logOpt, logErrorOpt]
  · intro self world logger apm hdev hca
    have htls : tlsOptionsFor self.configuration world.readFileSync = .error tlsRequiredError := by
      simp [tlsOptionsFor, hdev, hca]
    simp only [init, htls]
    cases logger <;> simp [connectEvents, logOpt, logErrorOpt]

theorem init_tls_path_selection_witness :
    connectEvents (init pluginFresh worldOk none none).2.2 =
        [Event.connectCall "amqp://localhost:5672" { ca := none }] ∧
      connectEvents (init pluginFreshProd worldOk none none).2.2 =
        [Event.connectCall "amqps://prod-rabbitmq:5671" { ca := some "CA-FAKE-CONTENT" }] ∧
      (init pluginFreshProdNoCA worldOk none none).1 = .error tlsRequiredError ∧
      connectEvents (init pluginFreshProdNoCA worldOk none none).2.2 = [] := by
  have h3 := init_tls_path_selection.2.2 pluginFreshProdNoCA worldOk none none
    (by decide) rfl
  exact ⟨init_tls_path_selection.1 pluginFresh worldOk none none rfl,
    init_tls_path_selection.2.1 pluginFreshProd worldOk none none "ca-file-path.pem"
      (by decide) rfl rfl,
    h3.1, h3.2⟩

/-- C7: in the non-development (TLS) branch, after a successful connect a
channel is created from the resulting connection and stored alongside it, so a
subsequent `relay` on the TLS-configured adapter passes its precondition and
publishes to the configured queue. -/
theorem init_tls_creates_channel (self : RabbitMQRelayPlugin) (world : BrokerWorld)
    (logger : Option LoggerService) (apm : Option Apm) (s : String)
    (c : ChannelModel) (ch : Channel)
    (hdev : self.configuration.nodeEnv ≠ "dev")
    (hca : self.configuration.RABBITMQ_TLS_CA = some s) (hsne : s.isEmpty = false)
    (hconn : world.connectResult self.configuration.DESTINATION_TRANSPORT_URL
        { ca := some (world.readFileSync s) } = .ok c)
    (hcr : world.createChannelResult c = .ok ch) :
    (init self world logger apm).1 = .ok () ∧
      (init self world logger apm).2.1.amqpConnection = some c ∧
      (init self world logger apm).2.1.amqpChannel = some ch ∧
      ∀ (world2 : BrokerWorld) (data : Payload),
        world2.sendToQueueResult self.configuration.PRODUCER_STREAM (bufferFrom data) = .ok () →
        (relay (init self world logger apm).2.1 world2 data).1 = .ok () ∧
          sendEvents (relay (init self world logger apm).2.1 world2 data).2.2 =
            [Event.sendToQueueCall self.configuration.PRODUCER_STREAM (bufferFrom data)] := by
  have htls : tlsOptionsFor self.configuration world.readFileSync =
      .ok { ca := some (world.readFileSync s) } := by
    simp [tlsOptionsFor, hdev, hca, hsne]
  refine ⟨by simp [init, htls, hconn, hcr], by simp [init, htls, hconn, hcr],
    by simp [init, htls, hconn, hcr], ?_⟩
  intro world2 data hsend
  simp only [init, htls, hconn, hcr]
  constructor
  · simp [relay, hsend]
  · simp only [relay]
    cases apm <;> cases logger <;> simp [hsend, sendEvents, logOpt, logErrorOpt]

theorem init_tls_creates_channel_witness :
    (init pluginFreshProd worldOk none none).1 = .ok () ∧
      (init pluginFreshProd worldOk none none).2.1.amqpChannel = some { id := 0 } ∧
      (relay (init pluginFreshProd worldOk none none).2.1 worldOk
        (Payload.str "TLS test message")).1 = .ok () := by
  have h := init_tls_creates_channel pluginFreshProd worldOk none none "ca-file-path.pem"
    { id := 0 } { id := 0 } (by decide) rfl rfl rfl rfl
  exact ⟨h.1, h.2.2.1, (h.2.2.2 worldOk (Payload.str "TLS test message") rfl).1⟩

end Tazama
